import Mathlib

/-!
Verification development for the pykhiops coclustering-deployment core:
the `deploy_coclustering` and `deploy_predictor_for_metrics` orchestration
helpers (`pykhiops/core/helpers.py`) and the `prepare_coclustering_deployment`
task specification (`pykhiops/core/api_internals/tasks/`).

External collaborators (the Khiops engine, the filesystem layer, the
dictionary-file reader) are embedded at their interface boundary: each engine
invocation made by the orchestrators is recorded as an `EngineCall` event in an
invocation trace, and the values an invocation would return (detected file
format, fresh temporary paths) are supplied through an `Env` record.
-/

namespace Pykhiops

/-- A variable of a Khiops dictionary: its name, its Khiops type (e.g.
"Categorical", "Numerical"), its meta-data (an ordered key/value list) and its
`used` flag. Mirrors the shape of `pykhiops.core.dictionary.Variable` that the
orchestration code touches. -/
structure Variable where
  name : String
  varType : String
  metaData : List (String × String)
  used : Bool
deriving Repr, DecidableEq

/-- A Khiops dictionary: name, key-variable name list, variable list (the
source's `variables` attribute; `variables` is reserved in Lean, hence
`vars`) and meta-data. Mirrors the shape of
`pykhiops.core.dictionary.Dictionary` that the orchestration code touches. -/
structure Dictionary where
  name : String
  key : List String
  vars : List Variable
  metaData : List (String × String)
deriving Repr, DecidableEq

/-- A collection of Khiops dictionaries
(`pykhiops.core.dictionary.DictionaryDomain`). -/
structure DictionaryDomain where
  dictionaries : List Dictionary
deriving Repr, DecidableEq

/-- `Dictionary.copy`: a deep copy. With value semantics a copy is the value
itself; what matters is that the source calls it before mutating, so the
mutation lands on the copy and not on the caller's object. -/
def Dictionary.copy (d : Dictionary) : Dictionary := d

/-- `DictionaryDomain.copy`: a deep copy (value semantics, see
`Dictionary.copy`). -/
def DictionaryDomain.copy (d : DictionaryDomain) : DictionaryDomain := d

/-- `DictionaryDomain.get_dictionary`: the first dictionary with the given
name, if any. -/
def DictionaryDomain.get_dictionary (dom : DictionaryDomain) (n : String) :
    Option Dictionary :=
  dom.dictionaries.find? (fun d => d.name == n)

/-- `Dictionary.get_variable`: the first variable with the given name, if
any. -/
def Dictionary.get_variable (d : Dictionary) (n : String) : Option Variable :=
  d.vars.find? (fun v => v.name == n)

/-- Replace the first dictionary named `n` by `f` applied to it: the value
counterpart of mutating in place the object `get_dictionary` returned. -/
def DictionaryDomain.updateDictionary (dom : DictionaryDomain) (n : String)
    (f : Dictionary → Dictionary) : DictionaryDomain :=
  ⟨go dom.dictionaries⟩
where
  go : List Dictionary → List Dictionary
    | [] => []
    | d :: ds => if d.name == n then f d :: ds else d :: go ds

/-- Membership of a key in an ordered key/value meta-data list
(`"K" in x.meta_data`). -/
def hasMetaKey (m : List (String × String)) (k : String) : Bool :=
  m.any (fun e => e.1 == k)

/-- `meta_data.get_value`: value of the first entry with the given key. -/
def getMetaValue (m : List (String × String)) (k : String) : Option String :=
  (m.find? (fun e => e.1 == k)).map (fun e => e.2)

/-- Errors raised by the orchestration helpers. `invalidKeySpec` stands for
the error raised when a named key variable is absent from the dictionary
(raised inside the external `get_variable`; the spec calls it
`InvalidKeySpec`); `lookupError` for an absent dictionary name;
`valueError` and `typeError` for the Python exceptions of the same names. -/
inductive PyError where
  | typeError (msg : String)
  | valueError (msg : String)
  | invalidKeySpec (variableName : String)
  | lookupError (dictionaryName : String)
deriving Repr, DecidableEq

/-- Reference to the dictionary argument of `deploy_model`: either a
dictionary file path or an in-memory domain. -/
inductive DictSpec where
  | path (p : String)
  | domain (d : DictionaryDomain)
deriving Repr, DecidableEq

/-- One external engine (subprocess) invocation performed by an orchestrator,
recorded with the arguments the call site passes. Optional fields are `none`
when the call site leaves them to the API default. -/
inductive EngineCall where
  | detectDataTableFormat (dataTablePath : String) (dictionaryName : String)
  | buildMultiTableDictionary (dom : DictionaryDomain)
      (rootDictionaryName tableVariableName outputDictionaryPath : String)
  | prepareCoclusteringDeployment
      (dictionaryFilePath dictionaryName coclusteringFilePath tableVariable
        deployedVariableName resultsDir : String)
      (maxPreservedInformation maxCells : Int)
      (maxPartNumbers : Option (List (String × Int)))
      (buildClusterVariable buildDistanceVariables buildFrequencyVariables : Bool)
      (variablesPrefix resultsPrefix : String)
  | extractKeysFromDataTable
      (dictionaryFilePath dictionaryName dataTablePath outputDataTablePath : String)
      (headerLine : Bool) (fieldSeparator : String)
      (outputHeaderLine : Bool) (outputFieldSeparator : String)
  | deployModel (dictionary : DictSpec) (dictionaryName : String)
      (dataTablePath outputDataTablePath : String)
      (detectFormat : Option Bool)
      (headerLine : Option Bool) (fieldSeparator : Option String)
      (samplePercentage : Option Int) (samplingMode : Option String)
      (additionalDataTables : Option (List (String × String)))
      (outputHeaderLine : Bool) (outputFieldSeparator : String)
deriving Repr, DecidableEq

/-- Is this invocation the format auto-detection lookahead? -/
def EngineCall.isDetect : EngineCall → Bool
  | .detectDataTableFormat _ _ => true
  | _ => false

/-- Is this invocation a main-chain step of `deploy_coclustering` (anything
other than the format auto-detection lookahead)? -/
def EngineCall.isMainChain (c : EngineCall) : Bool := !c.isDetect

/-- Environment supplying the values of external collaborators that return
data to the orchestrator: the format the auto-detection lookahead would
report for the input file, and the fresh temporary path the runner's
`create_temp_file` would allocate. -/
structure Env where
  detectedHeaderLine : Bool
  detectedFieldSeparator : String
  tmpDictionaryPath : String
deriving Repr, DecidableEq

/-- Split a character list at every occurrence of a separator character
(structurally recursive, so concrete instances reduce inside proofs). -/
def splitOnChar (c : Char) : List Char → List (List Char)
  | [] => [[]]
  | ch :: rest =>
    match splitOnChar c rest with
    | [] => if ch == c then [[], []] else [[ch]]
    | w :: ws => if ch == c then [] :: w :: ws else (ch :: w) :: ws

/-- Modelled from the spec: `os.path.basename` for slash-separated paths —
the final path component ("a transformed base name" derivation; `os` is an
external collaborator). -/
def basename (p : String) : String :=
  String.mk ((splitOnChar '/' p.data).getLastD [])

/-- Modelled from the spec: `pykhiops.core.filesystems.get_child_path`, the
filesystem collaborator operation that places a file name directly under a
directory ("all three are placed directly under the caller-specified results
directory"). -/
def getChildPath (dir childName : String) : String :=
  dir ++ "/" ++ childName

/-- Modelled from the spec: `create_unambiguous_khiops_path` (from
`pykhiops.core.common`, an external collaborator) disambiguates a path while
still denoting the same directory; the spec does not describe any renaming,
so it is embedded as the identity on the path. -/
def create_unambiguous_khiops_path (p : String) : String := p

/-- The key-variable validation loop of `deploy_coclustering`
(helpers.py lines 164-170): every named variable must exist in the
dictionary, and its type must be "Categorical"; returns the first error. -/
def checkKeyVariables (dictionary : Dictionary) :
    List String → Option PyError
  | [] => none
  | keyVariableName :: rest =>
    match dictionary.get_variable keyVariableName with
    | none => some (PyError.invalidKeySpec keyVariableName)
    | some keyVariable =>
      if keyVariable.varType != "Categorical" then
        some (PyError.valueError
          ("key variable types must be Categorical, variable " ++
            keyVariableName ++ " has type " ++ keyVariable.varType))
      else checkKeyVariables dictionary rest

/-- Result of a `deploy_coclustering` run: the returned value (or the raised
error), the ordered trace of engine invocations performed, and the state of
the caller's domain object after the call. -/
structure CoclusteringRun where
  result : Except PyError (String × String)
  trace : List EngineCall
  callerDomain : DictionaryDomain
deriving Repr

/-- Shallow embedding of `deploy_coclustering` (helpers.py lines 24-247),
with the caller's dictionary argument already resolved to a
`DictionaryDomain` (for a file-path argument the external
`read_dictionary_file` produces the domain). Engine invocations are recorded
in order in the trace; a raised exception aborts the remaining steps. -/
def deploy_coclustering (env : Env) (domain : DictionaryDomain)
    (dictionary_name data_table_path coclustering_file_path : String)
    (key_variable_names : List String)
    (deployed_variable_name results_dir : String)
    (detect_format : Bool) (header_line : Option Bool)
    (field_separator : Option String)
    (output_header_line : Bool) (output_field_separator : String)
    (max_preserved_information max_cells : Int)
    (max_part_numbers : Option (List (String × Int)))
    (build_cluster_variable build_distance_variables
      build_frequency_variables : Bool)
    (variablesPrefix resultsPrefix : String) : CoclusteringRun :=
  -- Disambiguate the results directory path if necessary
  let results_dir := create_unambiguous_khiops_path results_dir
  -- Detect the format once and for all to avoid inconsistencies
  let detectionRuns :=
    detect_format && header_line.isNone && field_separator.isNone
  let headerLine : Bool :=
    if detectionRuns then env.detectedHeaderLine else header_line.getD true
  let fieldSeparator : String :=
    if detectionRuns then env.detectedFieldSeparator
    else field_separator.getD "\t"
  let trace0 : List EngineCall :=
    if detectionRuns then
      [EngineCall.detectDataTableFormat data_table_path dictionary_name]
    else []
  -- Access the dictionary in the relevant variables
  match domain.get_dictionary dictionary_name with
  | none =>
    ⟨Except.error (PyError.lookupError dictionary_name), trace0, domain⟩
  | some dictionary =>
    -- Verify that the key variables are categorical
    match checkKeyVariables dictionary key_variable_names with
    | some e => ⟨Except.error e, trace0, domain⟩
    | none =>
      -- Make a copy of the dictionary and set the id_variable as key
      let tmp_dictionary :=
        { dictionary.copy with key := key_variable_names }
      let tmp_domain : DictionaryDomain := ⟨[tmp_dictionary]⟩
      let tmp_dictionary_path := env.tmpDictionaryPath
      -- Create a root dictionary containing the keys
      let root_dictionary_name := "CC_" ++ dictionary_name
      let table_variable_name := "Table_" ++ dictionary_name
      let buildCall := EngineCall.buildMultiTableDictionary tmp_domain
        root_dictionary_name table_variable_name tmp_dictionary_path
      -- Create the deployment dictionary
      let prepareCall := EngineCall.prepareCoclusteringDeployment
        tmp_dictionary_path root_dictionary_name coclustering_file_path
        table_variable_name deployed_variable_name results_dir
        max_preserved_information max_cells max_part_numbers
        build_cluster_variable build_distance_variables
        build_frequency_variables variablesPrefix resultsPrefix
      -- Extract the keys from the tables to a temporary file
      let data_table_file_name := basename data_table_path
      let keys_table_file_path :=
        getChildPath results_dir ("Keys" ++ data_table_file_name)
      let extractCall := EngineCall.extractKeysFromDataTable
        tmp_dictionary_path dictionary_name data_table_path
        keys_table_file_path headerLine fieldSeparator headerLine
        fieldSeparator
      -- Deploy the coclustering model
      let coclustering_dictionary_file_path :=
        getChildPath results_dir "Coclustering.kdic"
      let output_data_table_path :=
        getChildPath results_dir ("Deployed" ++ data_table_file_name)
      let additional_data_tables :=
        [(root_dictionary_name ++ "`" ++ table_variable_name,
          data_table_path)]
      let deployCall := EngineCall.deployModel
        (DictSpec.path coclustering_dictionary_file_path)
        root_dictionary_name keys_table_file_path output_data_table_path
        none (some headerLine) (some fieldSeparator) none none
        (some additional_data_tables) output_header_line
        output_field_separator
      ⟨Except.ok (output_data_table_path, coclustering_dictionary_file_path),
        trace0 ++ [buildCall, prepareCall, extractCall, deployCall],
        domain⟩

/-- The variable-selection loop of `deploy_predictor_for_metrics`
(helpers.py lines 330-342), applied to one variable after
`use_all_variables(False)` cleared every `used` flag: re-enable the target
variable; for a classifier also the prediction and target-probability
variables; for a regressor the mean variable. -/
def markVariableUsed (is_classifier : Bool) (v : Variable) : Variable :=
  let v := { v with used := false }
  if hasMetaKey v.metaData "TargetVariable" then { v with used := true }
  else if is_classifier then
    if hasMetaKey v.metaData "Prediction" ||
        v.metaData.any (fun e => e.1.startsWith "TargetProb") then
      { v with used := true }
    else v
  else if hasMetaKey v.metaData "Mean" then { v with used := true }
  else v

/-- Result of a `deploy_predictor_for_metrics` run: the outcome (the function
returns nothing on success), the engine-invocation trace, and the state of
the caller's domain object after the call. -/
structure PredictorMetricsRun where
  result : Except PyError Unit
  trace : List EngineCall
  callerDomain : DictionaryDomain
deriving Repr

/-- Shallow embedding of `deploy_predictor_for_metrics` (helpers.py lines
250-359), with the caller's dictionary argument already resolved to a
`DictionaryDomain`. The source copies the domain, checks that the named
dictionary carries the "PredictorType" meta-data key, toggles the `used`
flags on the copy and hands the copy to a single `deploy_model`
invocation. -/
def deploy_predictor_for_metrics (domain : DictionaryDomain)
    (dictionary_name data_table_path output_data_table_path : String)
    (detect_format : Bool) (header_line : Option Bool)
    (field_separator : Option String)
    (sample_percentage : Int) (sampling_mode : String)
    (additional_data_tables : Option (List (String × String)))
    (output_header_line : Bool) (output_field_separator : String) :
    PredictorMetricsRun :=
  -- Load the dictionary file into a domain if necessary (a domain is copied)
  let predictor_domain := domain.copy
  -- Check that the specified dictionary is a predictor
  match predictor_domain.get_dictionary dictionary_name with
  | none =>
    ⟨Except.error (PyError.lookupError dictionary_name), [], domain⟩
  | some predictor_dictionary =>
    if !hasMetaKey predictor_dictionary.metaData "PredictorType" then
      ⟨Except.error (PyError.valueError
        ("Dictionary " ++ predictor_dictionary.name ++ " is not a predictor")),
        [], domain⟩
    else
      -- Set the type of classifier
      let predictor_type :=
        (getMetaValue predictor_dictionary.metaData "PredictorType").getD ""
      let is_classifier := predictor_type == "Classifier"
      -- Use the necessary columns (mutates the copy in place)
      let predictor_domain := predictor_domain.updateDictionary
        dictionary_name
        (fun d => { d with vars := d.vars.map (markVariableUsed is_classifier) })
      -- Deploy the scores
      let deployCall := EngineCall.deployModel
        (DictSpec.domain predictor_domain) dictionary_name data_table_path
        output_data_table_path (some detect_format) header_line
        field_separator (some sample_percentage) (some sampling_mode)
        additional_data_tables output_header_line output_field_separator
      ⟨Except.ok (), [deployCall], domain⟩

/-! ## The `prepare_coclustering_deployment` task specification -/

/-- The parameter types of the task system
(`pykhiops.core.api_internals.types`). -/
inductive ParamType where
  | BoolType
  | IntType
  | StringLikeType
  | DictType (keyType valueType : ParamType)
deriving Repr, DecidableEq

/-- A default value of an optional task parameter (the Python literals used
in the task declarations). -/
inductive ParamValue where
  | noneValue
  | boolValue (b : Bool)
  | intValue (n : Int)
  | strValue (s : String)
deriving Repr, DecidableEq

/-- A task specification (`pykhiops.core.api_internals.task.KhiopsTask`):
name, owning tool, minimum engine version, required parameters, optional
parameters with defaults, the required-flag name list, and the scenario
template body as its sequence of lines. -/
structure KhiopsTask where
  name : String
  toolName : String
  minimumVersion : String
  requiredParameters : List (String × ParamType)
  optionalParameters : List (String × ParamType × ParamValue)
  requiredFlags : List String
  scenarioTemplate : List String
deriving Repr, DecidableEq

/-- Names of a task's required parameters. -/
def KhiopsTask.requiredNames (t : KhiopsTask) : List String :=
  t.requiredParameters.map (fun p => p.1)

/-- Names of a task's optional parameters. -/
def KhiopsTask.optionalNames (t : KhiopsTask) : List String :=
  t.optionalParameters.map (fun p => p.1)

/-- Names of all of a task's parameters, required first. -/
def KhiopsTask.paramNames (t : KhiopsTask) : List String :=
  t.requiredNames ++ t.optionalNames

/-- Default value declared for an optional parameter of a task. -/
def KhiopsTask.defaultOf (t : KhiopsTask) (n : String) : Option ParamValue :=
  (t.optionalParameters.find? (fun p => p.1 == n)).map (fun p => p.2.2)

/-- The `TASKS` list of
`pykhiops/core/api_internals/tasks/prepare_coclustering_deployment.py`:
a single task specification. The template lines are the lines of the
source's triple-quoted template string with the Python-source indentation
stripped. -/
def prepare_coclustering_deployment_tasks : List KhiopsTask :=
  [{ name := "prepare_coclustering_deployment"
     toolName := "khiops_coclustering"
     minimumVersion := "9.0"
     requiredParameters :=
       [("dictionary_file_path", ParamType.StringLikeType),
        ("dictionary_name", ParamType.StringLikeType),
        ("coclustering_file_path", ParamType.StringLikeType),
        ("table_variable", ParamType.StringLikeType),
        ("deployed_variable_name", ParamType.StringLikeType),
        ("results_dir", ParamType.StringLikeType)]
     optionalParameters :=
       [("max_preserved_information", ParamType.IntType, ParamValue.intValue 0),
        ("max_cells", ParamType.IntType, ParamValue.intValue 0),
        ("max_part_numbers",
          ParamType.DictType ParamType.StringLikeType ParamType.IntType,
          ParamValue.noneValue),
        ("build_cluster_variable", ParamType.BoolType, ParamValue.boolValue true),
        ("build_distance_variables", ParamType.BoolType, ParamValue.boolValue false),
        ("build_frequency_variables", ParamType.BoolType, ParamValue.boolValue false),
        ("variables_prefix", ParamType.StringLikeType, ParamValue.strValue ""),
        ("results_prefix", ParamType.StringLikeType, ParamValue.strValue "")]
     requiredFlags :=
       ["dictionary_file_path", "coclustering_file_path", "results_dir"]
     scenarioTemplate :=
       ["// Dictionary file and class settings",
        "ClassManagement.OpenFile",
        "ClassFileName __dictionary_file_path__",
        "OK",
        "ClassManagement.ClassName __dictionary_name__",
        "",
        "// Prepare deployment window",
        "LearningTools.PrepareDeployment",
        "",
        "// Coclustering file",
        "SelectInputCoclustering",
        "InputCoclusteringFileName __coclustering_file_path__",
        "OK",
        "",
        "// Simplification settings",
        "PostProcessingSpec.MaxPreservedInformation __max_preserved_information__",
        "PostProcessingSpec.MaxCellNumber __max_cells__",
        "__DICT__",
        "__max_part_numbers__",
        "PostProcessingSpec.PostProcessedAttributes.List.Key",
        "PostProcessingSpec.PostProcessedAttributes.MaxPartNumber",
        "__END_DICT__",
        "",
        "// Deployment dictionary settings",
        "DeploymentSpec.InputObjectArrayAttributeName __table_variable__",
        "DeploymentSpec.DeployedAttributeName __deployed_variable_name__",
        "DeploymentSpec.BuildPredictedClusterAttribute __build_cluster_variable__",
        "DeploymentSpec.BuildClusterDistanceAttributes __build_distance_variables__",
        "DeploymentSpec.BuildFrequencyRecodingAttributes __build_frequency_variables__",
        "DeploymentSpec.OutputAttributesPrefix __variables_prefix__",
        "",
        "// Output settings",
        "AnalysisResults.ResultFilesDirectory __results_dir__",
        "AnalysisResults.ResultFilesPrefix __results_prefix__",
        "",
        "// Execute prepare deployment",
        "PrepareDeployment",
        "Exit"] }]

/-- The single task spec of the `prepare_coclustering_deployment` family. -/
def prepareCoclusteringDeploymentTask : KhiopsTask :=
  (prepare_coclustering_deployment_tasks.getD 0
    { name := "", toolName := "", minimumVersion := "",
      requiredParameters := [], optionalParameters := [],
      requiredFlags := [], scenarioTemplate := [] })

/-- Is a whitespace-separated word of a template line a parameter
substitution token (`__name__`), block markers excluded? -/
def isTokenWord (w : String) : Bool :=
  decide (4 < w.data.length) && "__".data.isPrefixOf w.data &&
    "__".data.isSuffixOf w.data &&
    w != "__DICT__" && w != "__END_DICT__"

/-- The parameter name inside a substitution token. -/
def tokenName (w : String) : String :=
  String.mk ((w.data.drop 2).dropLast.dropLast)

/-- All parameter names referenced by substitution tokens of a template, in
template order. -/
def templateTokens (template : List String) : List String :=
  (template.flatMap (fun line =>
    ((splitOnChar ' ' line.data).map String.mk).filter isTokenWord)).map
    tokenName

/-- The lines strictly between the `__DICT__` and `__END_DICT__` markers of a
template. -/
def dictRegion (template : List String) : List String :=
  ((template.dropWhile (fun l => l != "__DICT__")).drop 1).takeWhile
    (fun l => l != "__END_DICT__")

/-- The mapping-valued substitution token of a template's dict region. -/
def dictRegionToken (template : List String) : Option String :=
  ((dictRegion template).find? isTokenWord).map tokenName

/-- The literal header lines of a template's dict region (its non-token
lines). -/
def dictRegionHeaders (template : List String) : List String :=
  (dictRegion template).filter (fun l => !isTokenWord l)

/-- Modelled from the spec: the ScenarioRenderer's mapping-block
substitution (the renderer module itself is not among the provided sources;
spec sections 4.1 and 4.2). The `__DICT__`/`__END_DICT__` region collapses
to nothing for an absent or empty mapping; otherwise its header lines are
emitted exactly once, followed by one line holding the formatted key and one
line holding the formatted value for each entry, in the mapping's insertion
order. -/
def renderMappingBlock (headerLines : List String)
    (mapping : Option (List (String × Int))) : List String :=
  match mapping with
  | none => []
  | some entries =>
    if entries.isEmpty then []
    else headerLines ++ entries.flatMap (fun e => [e.1, toString e.2])

/-- The rendering of the `__DICT__` region of the
`prepare_coclustering_deployment` template for a given `max_part_numbers`
value. -/
def renderMaxPartNumbersBlock (mapping : Option (List (String × Int))) :
    List String :=
  renderMappingBlock
    (dictRegionHeaders prepareCoclusteringDeploymentTask.scenarioTemplate)
    mapping

/-! ## Trace observers and test fixtures -/

/-- Output paths of the keys-extraction invocations of a trace. -/
def extractOutputPaths (trace : List EngineCall) : List String :=
  trace.filterMap (fun c =>
    match c with
    | .extractKeysFromDataTable _ _ _ p _ _ _ _ => some p
    | _ => none)

/-- (input format, output format) of each keys-extraction invocation of a
trace. -/
def extractFormats (trace : List EngineCall) :
    List ((Bool × String) × (Bool × String)) :=
  trace.filterMap (fun c =>
    match c with
    | .extractKeysFromDataTable _ _ _ _ h s oh os => some ((h, s), (oh, os))
    | _ => none)

/-- Input format (header line, field separator) of each deploy-model
invocation of a trace. -/
def deployInputFormats (trace : List EngineCall) :
    List (Option Bool × Option String) :=
  trace.filterMap (fun c =>
    match c with
    | .deployModel _ _ _ _ _ h s _ _ _ _ _ => some (h, s)
    | _ => none)

/-- Output format (header line, field separator) of each deploy-model
invocation of a trace. -/
def deployOutputFormats (trace : List EngineCall) : List (Bool × String) :=
  trace.filterMap (fun c =>
    match c with
    | .deployModel _ _ _ _ _ _ _ _ _ _ oh os => some (oh, os)
    | _ => none)

/-- (root dictionary name, table variable name) of each
build-multi-table-dictionary invocation of a trace. -/
def buildRootTableNames (trace : List EngineCall) : List (String × String) :=
  trace.filterMap (fun c =>
    match c with
    | .buildMultiTableDictionary _ r t _ => some (r, t)
    | _ => none)

/-- Erase the output format of deploy-model invocations, leaving everything
else of a trace intact: two traces equal after scrubbing differ at most in
the output format of their deploy steps. -/
def scrubDeployOutputFormat : EngineCall → EngineCall
  | .deployModel d n p o df h s sp sm adt _ _ =>
      .deployModel d n p o df h s sp sm adt true "\t"
  | c => c

/-- The sample dictionary used by the concrete test runs: variable "Id" is
Categorical, variable "X" is Numerical. -/
def sampleDictionary : Dictionary :=
  { name := "D", key := [],
    vars := [{ name := "Id", varType := "Categorical", metaData := [],
               used := true },
             { name := "X", varType := "Numerical", metaData := [],
               used := true }],
    metaData := [] }

/-- A one-dictionary sample domain. -/
def sampleDomain : DictionaryDomain := ⟨[sampleDictionary]⟩

/-- A sample collaborator environment: detection reports a header line and a
tab separator; the temporary dictionary gets a fixed fresh path. -/
def sampleEnv : Env :=
  { detectedHeaderLine := true, detectedFieldSeparator := "\t",
    tmpDictionaryPath := "/tmp/deploy_coclustering.kdic" }

/-! ## Helper lemmas characterizing `deploy_coclustering` runs -/

/-- A `deploy_coclustering` run whose dictionary lookup and key-variable
validation succeed is fully determined: its result, its invocation trace
(the optional detection lookahead followed by the four main-chain steps) and
its caller-visible domain. -/
lemma deploy_coclustering_run_eq (env : Env) (domain : DictionaryDomain)
    (dn dtp cfp : String) (kvn : List String) (dvn rdir : String)
    (df : Bool) (hl : Option Bool) (fsep : Option String)
    (ohl : Bool) (ofs : String) (mpi mc : Int)
    (mpn : Option (List (String × Int))) (bcv bdv bfv : Bool)
    (vp rp : String) (dict : Dictionary)
    (hdict : domain.get_dictionary dn = some dict)
    (hok : checkKeyVariables dict kvn = none) :
    deploy_coclustering env domain dn dtp cfp kvn dvn rdir df hl fsep ohl ofs
        mpi mc mpn bcv bdv bfv vp rp =
      { result := Except.ok
          (getChildPath rdir ("Deployed" ++ basename dtp),
           getChildPath rdir "Coclustering.kdic"),
        trace :=
          (if df && hl.isNone && fsep.isNone
           then [EngineCall.detectDataTableFormat dtp dn] else []) ++
          [EngineCall.buildMultiTableDictionary
             ⟨[{ dict with key := kvn }]⟩ ("CC_" ++ dn) ("Table_" ++ dn)
             env.tmpDictionaryPath,
           EngineCall.prepareCoclusteringDeployment env.tmpDictionaryPath
             ("CC_" ++ dn) cfp ("Table_" ++ dn) dvn rdir mpi mc mpn
             bcv bdv bfv vp rp,
           EngineCall.extractKeysFromDataTable env.tmpDictionaryPath dn dtp
             (getChildPath rdir ("Keys" ++ basename dtp))
             (if df && hl.isNone && fsep.isNone then env.detectedHeaderLine
              else hl.getD true)
             (if df && hl.isNone && fsep.isNone
              then env.detectedFieldSeparator else fsep.getD "\t")
             (if df && hl.isNone && fsep.isNone then env.detectedHeaderLine
              else hl.getD true)
             (if df && hl.isNone && fsep.isNone
              then env.detectedFieldSeparator else fsep.getD "\t"),
           EngineCall.deployModel
             (DictSpec.path (getChildPath rdir "Coclustering.kdic"))
             ("CC_" ++ dn)
             (getChildPath rdir ("Keys" ++ basename dtp))
             (getChildPath rdir ("Deployed" ++ basename dtp))
             none
             (some (if df && hl.isNone && fsep.isNone
                    then env.detectedHeaderLine else hl.getD true))
             (some (if df && hl.isNone && fsep.isNone
                    then env.detectedFieldSeparator else fsep.getD "\t"))
             none none
             (some [("CC_" ++ dn ++ "`" ++ ("Table_" ++ dn), dtp)])
             ohl ofs],
        callerDomain := domain } := by
  simp only [deploy_coclustering, create_unambiguous_khiops_path,
    Dictionary.copy, hdict, hok]

/-- A `deploy_coclustering` run that returns a value went through the
dictionary lookup and key-variable validation, and the returned paths are
the deployed-table and deployment-dictionary paths. -/
lemma deploy_coclustering_ok_inv (env : Env) (domain : DictionaryDomain)
    (dn dtp cfp : String) (kvn : List String) (dvn rdir : String)
    (df : Bool) (hl : Option Bool) (fsep : Option String)
    (ohl : Bool) (ofs : String) (mpi mc : Int)
    (mpn : Option (List (String × Int))) (bcv bdv bfv : Bool)
    (vp rp : String) (out kdic : String)
    (h : (deploy_coclustering env domain dn dtp cfp kvn dvn rdir df hl fsep
        ohl ofs mpi mc mpn bcv bdv bfv vp rp).result =
      Except.ok (out, kdic)) :
    ∃ dict, domain.get_dictionary dn = some dict ∧
      checkKeyVariables dict kvn = none ∧
      out = getChildPath rdir ("Deployed" ++ basename dtp) ∧
      kdic = getChildPath rdir "Coclustering.kdic" := by
  rcases hd : domain.get_dictionary dn with _ | dict
  · simp [deploy_coclustering, hd] at h
  · rcases hck : checkKeyVariables dict kvn with _ | e
    · refine ⟨dict, rfl, hck, ?_⟩
      rw [deploy_coclustering_run_eq env domain dn dtp cfp kvn dvn rdir df hl
        fsep ohl ofs mpi mc mpn bcv bdv bfv vp rp dict hd hck] at h
      simp only [Except.ok.injEq, Prod.mk.injEq] at h
      exact ⟨h.1.symm, h.2.symm⟩
    · simp [deploy_coclustering, hd, hck] at h

/-! ## Claim theorems -/

/-- C1, counterexample: a call whose key-variable list names the
non-Categorical variable "X" does fail, but with format auto-detection
active (detect_format true, header_line and field_separator unset) it has
already performed the detection lookahead invocation, so the number of
engine invocations is one, not zero, contradicting the claim that such a
call performs zero subprocess invocations including the lookahead. -/
theorem invalidKey_detection_still_invoked :
    ((deploy_coclustering sampleEnv sampleDomain "D" "dir/data.txt" "cc.khc"
        ["X"] "Cluster" "results" true none none true "\t" 0 0 none true
        false false "" "").result =
      Except.error (PyError.valueError
        "key variable types must be Categorical, variable X has type Numerical")) ∧
    (deploy_coclustering sampleEnv sampleDomain "D" "dir/data.txt" "cc.khc"
        ["X"] "Cluster" "results" true none none true "\t" 0 0 none true
        false false "" "").trace =
      [EngineCall.detectDataTableFormat "dir/data.txt" "D"] := by
  constructor <;> rfl

/-- C1 (amended): a call whose key-variable list names a variable absent
from the target dictionary or of non-Categorical type fails with
InvalidKeySpec resp. ValueError and performs zero main-chain engine
invocations; its trace holds at most the format auto-detection lookahead,
present exactly when detect_format is true and neither header_line nor
field_separator was supplied. -/
theorem invalidKey_fails_before_main_chain
    (env : Env) (domain : DictionaryDomain) (dn dtp cfp : String)
    (kvn : List String) (dvn rdir : String) (df : Bool) (hl : Option Bool)
    (fsep : Option String) (ohl : Bool) (ofs : String) (mpi mc : Int)
    (mpn : Option (List (String × Int))) (bcv bdv bfv : Bool)
    (vp rp : String) (dict : Dictionary) (e : PyError)
    (hdict : domain.get_dictionary dn = some dict)
    (hbad : checkKeyVariables dict kvn = some e) :
    ((deploy_coclustering env domain dn dtp cfp kvn dvn rdir df hl fsep ohl
        ofs mpi mc mpn bcv bdv bfv vp rp).result = Except.error e) ∧
    ((deploy_coclustering env domain dn dtp cfp kvn dvn rdir df hl fsep ohl
        ofs mpi mc mpn bcv bdv bfv vp rp).trace =
      (if df && hl.isNone && fsep.isNone
       then [EngineCall.detectDataTableFormat dtp dn] else [])) ∧
    (deploy_coclustering env domain dn dtp cfp kvn dvn rdir df hl fsep ohl
        ofs mpi mc mpn bcv bdv bfv vp rp).trace.filter
      EngineCall.isMainChain = [] := by
  refine ⟨?_, ?_, ?_⟩
  · simp [deploy_coclustering, hdict, hbad]
  · simp [deploy_coclustering, hdict, hbad]
  · by_cases hc : (df && hl.isNone && fsep.isNone) = true <;>
      simp [deploy_coclustering, hdict, hbad, hc, EngineCall.isMainChain,
        EngineCall.isDetect]

/-- C1 witness: concrete failing call with both format controls supplied —
it fails and performs no engine invocation at all. -/
theorem invalidKey_fails_before_main_chain_witness :
    ((deploy_coclustering sampleEnv sampleDomain "D" "dir/data.txt" "cc.khc"
        ["X"] "Cluster" "results" true (some true) (some ";") true "\t" 0 0
        none true false false "" "").result =
      Except.error (PyError.valueError
        "key variable types must be Categorical, variable X has type Numerical")) ∧
    ((deploy_coclustering sampleEnv sampleDomain "D" "dir/data.txt" "cc.khc"
        ["X"] "Cluster" "results" true (some true) (some ";") true "\t" 0 0
        none true false false "" "").trace = []) ∧
    (deploy_coclustering sampleEnv sampleDomain "D" "dir/data.txt" "cc.khc"
        ["X"] "Cluster" "results" true (some true) (some ";") true "\t" 0 0
        none true false false "" "").trace.filter
      EngineCall.isMainChain = [] := by
  have h := invalidKey_fails_before_main_chain sampleEnv sampleDomain "D"
    "dir/data.txt" "cc.khc" ["X"] "Cluster" "results" true (some true)
    (some ";") true "\t" 0 0 none true false false "" "" sampleDictionary
    (PyError.valueError
      "key variable types must be Categorical, variable X has type Numerical")
    (by rfl) (by rfl)
  exact ⟨h.1, by simpa using h.2.1, h.2.2⟩

/-- C2, counterexample: with detect_format true, header_line supplied and
field_separator not supplied, the caller did not supply both format
controls, yet the run performs no detection invocation (it proceeds
directly through the four main-chain steps), contradicting the claim that
detection is skipped exactly when both controls are given. -/
theorem detection_skipped_with_partial_format_controls :
    ((deploy_coclustering sampleEnv sampleDomain "D" "dir/data.txt" "cc.khc"
        ["Id"] "Cluster" "results" true (some true) none true "\t" 0 0 none
        true false false "" "").trace.filter EngineCall.isDetect = []) ∧
    (deploy_coclustering sampleEnv sampleDomain "D" "dir/data.txt" "cc.khc"
        ["Id"] "Cluster" "results" true (some true) none true "\t" 0 0 none
        true false false "" "").trace.length = 4 := by
  constructor <;> rfl

/-- C2 (amended): the format auto-detection lookahead runs exactly when
detect_format is true and the caller supplied neither header_line nor
field_separator; when it runs it is the first invocation, before the main
chain. -/
theorem detection_runs_iff_detect_format_and_no_controls
    (env : Env) (domain : DictionaryDomain) (dn dtp cfp : String)
    (kvn : List String) (dvn rdir : String) (df : Bool) (hl : Option Bool)
    (fsep : Option String) (ohl : Bool) (ofs : String) (mpi mc : Int)
    (mpn : Option (List (String × Int))) (bcv bdv bfv : Bool)
    (vp rp : String) :
    ((deploy_coclustering env domain dn dtp cfp kvn dvn rdir df hl fsep ohl
        ofs mpi mc mpn bcv bdv bfv vp rp).trace.filter EngineCall.isDetect =
      (if df && hl.isNone && fsep.isNone
       then [EngineCall.detectDataTableFormat dtp dn] else [])) ∧
    (deploy_coclustering env domain dn dtp cfp kvn dvn rdir df hl fsep ohl
        ofs mpi mc mpn bcv bdv bfv vp rp).trace.take
        (if df && hl.isNone && fsep.isNone then 1 else 0) =
      (if df && hl.isNone && fsep.isNone
       then [EngineCall.detectDataTableFormat dtp dn] else []) := by
  rcases hd : domain.get_dictionary dn with _ | dict
  · by_cases hc : (df && hl.isNone && fsep.isNone) = true <;>
      constructor <;>
        simp [deploy_coclustering, hd, hc, EngineCall.isDetect]
  · rcases hck : checkKeyVariables dict kvn with _ | e
    · rw [deploy_coclustering_run_eq env domain dn dtp cfp kvn dvn rdir df
        hl fsep ohl ofs mpi mc mpn bcv bdv bfv vp rp dict hd hck]
      by_cases hc : (df && hl.isNone && fsep.isNone) = true <;>
        constructor <;> simp [hc, EngineCall.isDetect]
    · by_cases hc : (df && hl.isNone && fsep.isNone) = true <;>
        constructor <;>
          simp [deploy_coclustering, hd, hck, hc, EngineCall.isDetect]

/-- C9: when the named dictionary's meta-data lacks the "PredictorType" key,
deploy_predictor_for_metrics raises ValueError identifying the dictionary
as not a predictor, with an empty invocation trace (no model deployment is
attempted). -/
theorem non_predictor_dictionary_rejected_before_deploy
    (domain : DictionaryDomain) (dn dtp odtp : String) (df : Bool)
    (hl : Option Bool) (fsep : Option String) (sp : Int) (sm : String)
    (adt : Option (List (String × String))) (ohl : Bool) (ofs : String)
    (dict : Dictionary)
    (hdict : domain.get_dictionary dn = some dict)
    (hmeta : hasMetaKey dict.metaData "PredictorType" = false) :
    ((deploy_predictor_for_metrics domain dn dtp odtp df hl fsep sp sm adt
        ohl ofs).result =
      Except.error (PyError.valueError
        ("Dictionary " ++ dict.name ++ " is not a predictor"))) ∧
    (deploy_predictor_for_metrics domain dn dtp odtp df hl fsep sp sm adt
      ohl ofs).trace = [] := by
  constructor <;>
    simp [deploy_predictor_for_metrics, DictionaryDomain.copy, hdict, hmeta]

/-- C9 witness: the sample dictionary "D" has no "PredictorType" meta-data;
the call is rejected with an empty trace. -/
theorem non_predictor_dictionary_rejected_before_deploy_witness :
    ((deploy_predictor_for_metrics sampleDomain "D" "data.txt" "out.txt"
        true none none 70 "Include sample" none true "\t").result =
      Except.error (PyError.valueError "Dictionary D is not a predictor")) ∧
    (deploy_predictor_for_metrics sampleDomain "D" "data.txt" "out.txt"
      true none none 70 "Include sample" none true "\t").trace = [] := by
  have h := non_predictor_dictionary_rejected_before_deploy sampleDomain "D"
    "data.txt" "out.txt" true none none 70 "Include sample" none true "\t"
    sampleDictionary (by rfl) (by rfl)
  exact ⟨h.1, h.2⟩

/-- C10: neither composite operation mutates the caller's in-memory domain:
after any deploy_coclustering call and any deploy_predictor_for_metrics
call, the caller-visible domain equals the one passed in (both functions
copy before assigning the key or toggling used flags). -/
theorem caller_domain_unmodified
    (env : Env) (domain : DictionaryDomain) (dn dtp cfp : String)
    (kvn : List String) (dvn rdir : String) (df : Bool) (hl : Option Bool)
    (fsep : Option String) (ohl : Bool) (ofs : String) (mpi mc : Int)
    (mpn : Option (List (String × Int))) (bcv bdv bfv : Bool)
    (vp rp : String) (domain2 : DictionaryDomain) (pdn pdtp podtp : String)
    (pdf : Bool) (phl : Option Bool) (pfs : Option String) (psp : Int)
    (psm : String) (padt : Option (List (String × String))) (pohl : Bool)
    (pofs : String) :
    ((deploy_coclustering env domain dn dtp cfp kvn dvn rdir df hl fsep ohl
        ofs mpi mc mpn bcv bdv bfv vp rp).callerDomain = domain) ∧
    (deploy_predictor_for_metrics domain2 pdn pdtp podtp pdf phl pfs psp psm
      padt pohl pofs).callerDomain = domain2 := by
  constructor
  · rcases hd : domain.get_dictionary dn with _ | dict
    · simp [deploy_coclustering, hd]
    · rcases hck : checkKeyVariables dict kvn with _ | e <;>
        simp [deploy_coclustering, hd, hck]
  · rcases hd2 : domain2.get_dictionary pdn with _ | dict2
    · simp [deploy_predictor_for_metrics, DictionaryDomain.copy, hd2]
    · cases hmk : hasMetaKey dict2.metaData "PredictorType" <;>
        simp [deploy_predictor_for_metrics, DictionaryDomain.copy, hd2, hmk]

/-- C3: on every call that returns, the three generated artifacts are named
exactly Keys<B>, Deployed<B> and Coclustering.kdic, where B is the basename
of the data table path, and each is a direct child (getChildPath) of the
caller-specified results directory. -/
theorem artifacts_named_and_placed_under_results_dir
    (env : Env) (domain : DictionaryDomain) (dn dtp cfp : String)
    (kvn : List String) (dvn rdir : String) (df : Bool) (hl : Option Bool)
    (fsep : Option String) (ohl : Bool) (ofs : String) (mpi mc : Int)
    (mpn : Option (List (String × Int))) (bcv bdv bfv : Bool)
    (vp rp : String) (out kdic : String)
    (h : (deploy_coclustering env domain dn dtp cfp kvn dvn rdir df hl fsep
        ohl ofs mpi mc mpn bcv bdv bfv vp rp).result =
      Except.ok (out, kdic)) :
    out = getChildPath rdir ("Deployed" ++ basename dtp) ∧
    kdic = getChildPath rdir "Coclustering.kdic" ∧
    extractOutputPaths (deploy_coclustering env domain dn dtp cfp kvn dvn
        rdir df hl fsep ohl ofs mpi mc mpn bcv bdv bfv vp rp).trace =
      [getChildPath rdir ("Keys" ++ basename dtp)] := by
  obtain ⟨dict, hd, hck, ho, hk⟩ := deploy_coclustering_ok_inv env domain dn
    dtp cfp kvn dvn rdir df hl fsep ohl ofs mpi mc mpn bcv bdv bfv vp rp out
    kdic h
  refine ⟨ho, hk, ?_⟩
  rw [deploy_coclustering_run_eq env domain dn dtp cfp kvn dvn rdir df hl
    fsep ohl ofs mpi mc mpn bcv bdv bfv vp rp dict hd hck]
  by_cases hc : (df && hl.isNone && fsep.isNone) = true <;>
    simp [hc, extractOutputPaths]

/-- C3 witness: concrete successful run; the three artifacts sit under
"results" with the specified names. -/
theorem artifacts_named_and_placed_under_results_dir_witness :
    "results/Deployeddata.txt" =
      getChildPath "results" ("Deployed" ++ basename "dir/data.txt") ∧
    "results/Coclustering.kdic" = getChildPath "results" "Coclustering.kdic" ∧
    extractOutputPaths (deploy_coclustering sampleEnv sampleDomain "D"
        "dir/data.txt" "cc.khc" ["Id"] "Cluster" "results" true none none
        true "\t" 0 0 none true false false "" "").trace =
      [getChildPath "results" ("Keys" ++ basename "dir/data.txt")] :=
  artifacts_named_and_placed_under_results_dir sampleEnv sampleDomain "D"
    "dir/data.txt" "cc.khc" ["Id"] "Cluster" "results" true none none true
    "\t" 0 0 none true false false "" "" "results/Deployeddata.txt"
    "results/Coclustering.kdic" (by rfl)

/-- C4: on every call that returns, the final invocation is the deploy-model
step: the keys-only extract is its primary input table and the original
data table is its single additional joined table, bound under the data-path
key root`table with root = "CC_" + dictionary name and table = "Table_" +
dictionary name; the same root/table pair was used by the earlier
build-multi-table-dictionary step. -/
theorem deploy_step_primary_and_additional_tables
    (env : Env) (domain : DictionaryDomain) (dn dtp cfp : String)
    (kvn : List String) (dvn rdir : String) (df : Bool) (hl : Option Bool)
    (fsep : Option String) (ohl : Bool) (ofs : String) (mpi mc : Int)
    (mpn : Option (List (String × Int))) (bcv bdv bfv : Bool)
    (vp rp : String) (out kdic : String)
    (h : (deploy_coclustering env domain dn dtp cfp kvn dvn rdir df hl fsep
        ohl ofs mpi mc mpn bcv bdv bfv vp rp).result =
      Except.ok (out, kdic)) :
    ((deploy_coclustering env domain dn dtp cfp kvn dvn rdir df hl fsep ohl
        ofs mpi mc mpn bcv bdv bfv vp rp).trace.getLast? =
      some (EngineCall.deployModel
        (DictSpec.path (getChildPath rdir "Coclustering.kdic"))
        ("CC_" ++ dn)
        (getChildPath rdir ("Keys" ++ basename dtp))
        (getChildPath rdir ("Deployed" ++ basename dtp))
        none
        (some (if df && hl.isNone && fsep.isNone then env.detectedHeaderLine
               else hl.getD true))
        (some (if df && hl.isNone && fsep.isNone
               then env.detectedFieldSeparator else fsep.getD "\t"))
        none none
        (some [("CC_" ++ dn ++ "`" ++ ("Table_" ++ dn), dtp)]) ohl ofs)) ∧
    buildRootTableNames (deploy_coclustering env domain dn dtp cfp kvn dvn
        rdir df hl fsep ohl ofs mpi mc mpn bcv bdv bfv vp rp).trace =
      [("CC_" ++ dn, "Table_" ++ dn)] := by
  obtain ⟨dict, hd, hck, ho, hk⟩ := deploy_coclustering_ok_inv env domain dn
    dtp cfp kvn dvn rdir df hl fsep ohl ofs mpi mc mpn bcv bdv bfv vp rp out
    kdic h
  rw [deploy_coclustering_run_eq env domain dn dtp cfp kvn dvn rdir df hl
    fsep ohl ofs mpi mc mpn bcv bdv bfv vp rp dict hd hck]
  by_cases hc : (df && hl.isNone && fsep.isNone) = true <;>
    constructor <;> simp [hc, buildRootTableNames]

/-- C4 witness: concrete successful run; the last invocation deploys onto
the keys extract with the original table joined under "CC_D`Table_D". -/
theorem deploy_step_primary_and_additional_tables_witness :
    ((deploy_coclustering sampleEnv sampleDomain "D" "dir/data.txt" "cc.khc"
        ["Id"] "Cluster" "results" true (some true) (some "\t") true "\t" 0
        0 none true false false "" "").trace.getLast? =
      some (EngineCall.deployModel
        (DictSpec.path (getChildPath "results" "Coclustering.kdic"))
        ("CC_" ++ "D")
        (getChildPath "results" ("Keys" ++ basename "dir/data.txt"))
        (getChildPath "results" ("Deployed" ++ basename "dir/data.txt"))
        none (some true) (some "\t") none none
        (some [("CC_" ++ "D" ++ "`" ++ ("Table_" ++ "D"), "dir/data.txt")])
        true "\t")) ∧
    buildRootTableNames (deploy_coclustering sampleEnv sampleDomain "D"
        "dir/data.txt" "cc.khc" ["Id"] "Cluster" "results" true (some true)
        (some "\t") true "\t" 0 0 none true false false "" "").trace =
      [("CC_" ++ "D", "Table_" ++ "D")] := by
  have h := deploy_step_primary_and_additional_tables sampleEnv sampleDomain
    "D" "dir/data.txt" "cc.khc" ["Id"] "Cluster" "results" true (some true)
    (some "\t") true "\t" 0 0 none true false false "" ""
    "results/Deployeddata.txt" "results/Coclustering.kdic" (by rfl)
  simpa using h

/-- C6: every call that returns yields exactly the 2-tuple (deployed output
data table path, deployment dictionary file path), in that order. -/
theorem returns_deployed_and_dictionary_paths
    (env : Env) (domain : DictionaryDomain) (dn dtp cfp : String)
    (kvn : List String) (dvn rdir : String) (df : Bool) (hl : Option Bool)
    (fsep : Option String) (ohl : Bool) (ofs : String) (mpi mc : Int)
    (mpn : Option (List (String × Int))) (bcv bdv bfv : Bool)
    (vp rp : String) (out kdic : String)
    (h : (deploy_coclustering env domain dn dtp cfp kvn dvn rdir df hl fsep
        ohl ofs mpi mc mpn bcv bdv bfv vp rp).result =
      Except.ok (out, kdic)) :
    (deploy_coclustering env domain dn dtp cfp kvn dvn rdir df hl fsep ohl
        ofs mpi mc mpn bcv bdv bfv vp rp).result =
      Except.ok (getChildPath rdir ("Deployed" ++ basename dtp),
        getChildPath rdir "Coclustering.kdic") := by
  obtain ⟨dict, hd, hck, ho, hk⟩ := deploy_coclustering_ok_inv env domain dn
    dtp cfp kvn dvn rdir df hl fsep ohl ofs mpi mc mpn bcv bdv bfv vp rp out
    kdic h
  rw [deploy_coclustering_run_eq env domain dn dtp cfp kvn dvn rdir df hl
    fsep ohl ofs mpi mc mpn bcv bdv bfv vp rp dict hd hck]

/-- C6 witness: concrete successful run returning the deployed table path
first and the dictionary path second. -/
theorem returns_deployed_and_dictionary_paths_witness :
    (deploy_coclustering sampleEnv sampleDomain "D" "dir/data.txt" "cc.khc"
        ["Id"] "Cluster" "results" true none none true "\t" 0 0 none true
        false false "" "").result =
      Except.ok (getChildPath "results" ("Deployed" ++ basename "dir/data.txt"),
        getChildPath "results" "Coclustering.kdic") :=
  returns_deployed_and_dictionary_paths sampleEnv sampleDomain "D"
    "dir/data.txt" "cc.khc" ["Id"] "Cluster" "results" true none none true
    "\t" 0 0 none true false false "" "" "results/Deployeddata.txt"
    "results/Coclustering.kdic" (by rfl)

/-- C8: on every call that returns, the keys-only extract is written with
exactly the resolved header_line/field_separator pair and read back by the
deploy step with the same pair, while the caller-supplied
output_header_line/output_field_separator appear only as the deploy step's
output format: replacing them by any other pair changes neither the result
nor any invocation outside the deploy step's output format. -/
theorem keys_extract_format_roundtrip
    (env : Env) (domain : DictionaryDomain) (dn dtp cfp : String)
    (kvn : List String) (dvn rdir : String) (df : Bool) (hl : Option Bool)
    (fsep : Option String) (ohl : Bool) (ofs : String) (mpi mc : Int)
    (mpn : Option (List (String × Int))) (bcv bdv bfv : Bool)
    (vp rp : String) (ohl2 : Bool) (ofs2 : String) (out kdic : String)
    (h : (deploy_coclustering env domain dn dtp cfp kvn dvn rdir df hl fsep
        ohl ofs mpi mc mpn bcv bdv bfv vp rp).result =
      Except.ok (out, kdic)) :
    (extractFormats (deploy_coclustering env domain dn dtp cfp kvn dvn rdir
        df hl fsep ohl ofs mpi mc mpn bcv bdv bfv vp rp).trace =
      [(((if df && hl.isNone && fsep.isNone then env.detectedHeaderLine
          else hl.getD true),
         (if df && hl.isNone && fsep.isNone then env.detectedFieldSeparator
          else fsep.getD "\t")),
        ((if df && hl.isNone && fsep.isNone then env.detectedHeaderLine
          else hl.getD true),
         (if df && hl.isNone && fsep.isNone then env.detectedFieldSeparator
          else fsep.getD "\t")))]) ∧
    (deployInputFormats (deploy_coclustering env domain dn dtp cfp kvn dvn
        rdir df hl fsep ohl ofs mpi mc mpn bcv bdv bfv vp rp).trace =
      [(some (if df && hl.isNone && fsep.isNone then env.detectedHeaderLine
              else hl.getD true),
        some (if df && hl.isNone && fsep.isNone
              then env.detectedFieldSeparator else fsep.getD "\t"))]) ∧
    (deployOutputFormats (deploy_coclustering env domain dn dtp cfp kvn dvn
        rdir df hl fsep ohl ofs mpi mc mpn bcv bdv bfv vp rp).trace =
      [(ohl, ofs)]) ∧
    ((deploy_coclustering env domain dn dtp cfp kvn dvn rdir df hl fsep ohl2
        ofs2 mpi mc mpn bcv bdv bfv vp rp).result =
      (deploy_coclustering env domain dn dtp cfp kvn dvn rdir df hl fsep ohl
        ofs mpi mc mpn bcv bdv bfv vp rp).result) ∧
    (deploy_coclustering env domain dn dtp cfp kvn dvn rdir df hl fsep ohl2
        ofs2 mpi mc mpn bcv bdv bfv vp rp).trace.map
        scrubDeployOutputFormat =
      (deploy_coclustering env domain dn dtp cfp kvn dvn rdir df hl fsep ohl
        ofs mpi mc mpn bcv bdv bfv vp rp).trace.map
        scrubDeployOutputFormat := by
  obtain ⟨dict, hd, hck, ho, hk⟩ := deploy_coclustering_ok_inv env domain dn
    dtp cfp kvn dvn rdir df hl fsep ohl ofs mpi mc mpn bcv bdv bfv vp rp out
    kdic h
  rw [deploy_coclustering_run_eq env domain dn dtp cfp kvn dvn rdir df hl
    fsep ohl ofs mpi mc mpn bcv bdv bfv vp rp dict hd hck,
    deploy_coclustering_run_eq env domain dn dtp cfp kvn dvn rdir df hl
    fsep ohl2 ofs2 mpi mc mpn bcv bdv bfv vp rp dict hd hck]
  by_cases hc : (df && hl.isNone && fsep.isNone) = true <;>
    refine ⟨?_, ?_, ?_, ?_, ?_⟩ <;>
      simp [hc, extractFormats, deployInputFormats, deployOutputFormats,
        scrubDeployOutputFormat]

/-- C8 witness: concrete successful run with explicit format controls; the
extract is written and read back with (true, ";") while the deploy output
format is the caller-supplied (false, ","). -/
theorem keys_extract_format_roundtrip_witness :
    (extractFormats (deploy_coclustering sampleEnv sampleDomain "D"
        "dir/data.txt" "cc.khc" ["Id"] "Cluster" "results" true (some true)
        (some ";") false "," 0 0 none true false false "" "").trace =
      [((true, ";"), (true, ";"))]) ∧
    (deployInputFormats (deploy_coclustering sampleEnv sampleDomain "D"
        "dir/data.txt" "cc.khc" ["Id"] "Cluster" "results" true (some true)
        (some ";") false "," 0 0 none true false false "" "").trace =
      [(some true, some ";")]) ∧
    (deployOutputFormats (deploy_coclustering sampleEnv sampleDomain "D"
        "dir/data.txt" "cc.khc" ["Id"] "Cluster" "results" true (some true)
        (some ";") false "," 0 0 none true false false "" "").trace =
      [(false, ",")]) ∧
    ((deploy_coclustering sampleEnv sampleDomain "D" "dir/data.txt" "cc.khc"
        ["Id"] "Cluster" "results" true (some true) (some ";") true "\t" 0 0
        none true false false "" "").result =
      (deploy_coclustering sampleEnv sampleDomain "D" "dir/data.txt"
        "cc.khc" ["Id"] "Cluster" "results" true (some true) (some ";")
        false "," 0 0 none true false false "" "").result) ∧
    (deploy_coclustering sampleEnv sampleDomain "D" "dir/data.txt" "cc.khc"
        ["Id"] "Cluster" "results" true (some true) (some ";") true "\t" 0 0
        none true false false "" "").trace.map scrubDeployOutputFormat =
      (deploy_coclustering sampleEnv sampleDomain "D" "dir/data.txt"
        "cc.khc" ["Id"] "Cluster" "results" true (some true) (some ";")
        false "," 0 0 none true false false "" "").trace.map
        scrubDeployOutputFormat := by
  have h := keys_extract_format_roundtrip sampleEnv sampleDomain "D"
    "dir/data.txt" "cc.khc" ["Id"] "Cluster" "results" true (some true)
    (some ";") false "," 0 0 none true false false "" "" true "\t"
    "results/Deployeddata.txt" "results/Coclustering.kdic" (by rfl)
  simpa using h

/-- C5: the mapping-valued token of the template's __DICT__ region is
__max_part_numbers__, whose declared default is None; rendering the region
yields nothing for an absent or empty mapping (neither header lines nor
entries), and for a non-empty mapping the two PostProcessingSpec header
lines exactly once followed by one key line and one value line per entry in
the mapping's insertion order. -/
theorem dict_block_collapse_and_expansion :
    dictRegionToken prepareCoclusteringDeploymentTask.scenarioTemplate =
      some "max_part_numbers" ∧
    prepareCoclusteringDeploymentTask.defaultOf "max_part_numbers" =
      some ParamValue.noneValue ∧
    renderMaxPartNumbersBlock none = [] ∧
    renderMaxPartNumbersBlock (some []) = [] ∧
    ∀ m : List (String × Int), m ≠ [] →
      renderMaxPartNumbersBlock (some m) =
        ["PostProcessingSpec.PostProcessedAttributes.List.Key",
         "PostProcessingSpec.PostProcessedAttributes.MaxPartNumber"] ++
          m.flatMap (fun e => [e.1, toString e.2]) := by
  refine ⟨rfl, rfl, rfl, rfl, ?_⟩
  intro m hm
  match m, hm with
  | a :: as, _ => rfl

/-- C5 witness: the spec's example mapping, rendered in insertion order (the
"b" entry before the "a" entry) after the two header lines. -/
theorem dict_block_collapse_and_expansion_witness :
    renderMaxPartNumbersBlock (some [("b", 1), ("a", 2)]) =
      ["PostProcessingSpec.PostProcessedAttributes.List.Key",
       "PostProcessingSpec.PostProcessedAttributes.MaxPartNumber"] ++
        [("b", (1 : Int)), ("a", 2)].flatMap
          (fun e => [e.1, toString e.2]) :=
  dict_block_collapse_and_expansion.2.2.2.2 [("b", 1), ("a", 2)]
    (by simp)

/-- C7: every substitution token of the prepare_coclustering_deployment
template (the fourteen listed names, in template order) has a matching
declared parameter; every required-flag name appears in the combined
parameter list; and no name appears in both the required and the optional
list. -/
theorem template_tokens_declared_and_lists_disjoint :
    templateTokens prepareCoclusteringDeploymentTask.scenarioTemplate =
      ["dictionary_file_path", "dictionary_name", "coclustering_file_path",
       "max_preserved_information", "max_cells", "max_part_numbers",
       "table_variable", "deployed_variable_name", "build_cluster_variable",
       "build_distance_variables", "build_frequency_variables",
       "variables_prefix", "results_dir", "results_prefix"] ∧
    ((templateTokens prepareCoclusteringDeploymentTask.scenarioTemplate).all
      (fun n => prepareCoclusteringDeploymentTask.paramNames.contains n) =
      true) ∧
    (prepareCoclusteringDeploymentTask.requiredFlags.all
      (fun n => prepareCoclusteringDeploymentTask.paramNames.contains n) =
      true) ∧
    prepareCoclusteringDeploymentTask.requiredNames.all
      (fun n => !prepareCoclusteringDeploymentTask.optionalNames.contains n) =
      true := by
  refine ⟨rfl, rfl, rfl, rfl⟩

end Pykhiops
